import Mathlib

/-!
Verification of the OIDC SSO connector (`packages/core/src/sso/OidcConnector/index.ts`).

The connector class is embedded as pure Lean functions.  External effects are
made explicit:
* the discovery fetch (`fetchOidcConfig`, performed over the network) is an
  `Except`-valued parameter, and each operation records an event trace listing
  the discovery fetch, the session write and the token-endpoint request it
  performs, in order;
* the token-endpoint exchange is a `provider` oracle mapping the request the
  connector builds to the provider's response;
* the identity-token signature check (a cryptographic library call) is a
  boolean field of the modelled token.

Helpers that live in `OidcConnector/utils.ts` (not part of the sources at
hand) — `fetchToken`, `getIdTokenClaims` — and `generateStandardId` from
`@logto/shared` are modelled from the specification; each such definition says
so in its doc comment.  Everything else is translated directly from
`index.ts`.
-/

/-- Error codes of `ConnectorError` (`@logto/connector-kit`) used by the
connector: only the code matters for the contracts, so the message payload is
dropped. -/
inductive ConnectorErrorCodes where
  | notImplemented
  | invalidConfig
  | invalidAuthCode
  | invalidIdToken
  | invalidAccessToken
deriving DecidableEq, Repr

/-- Static operator-supplied connector configuration (`BasicOidcConnectorConfig`
from `types/oidc.ts`): client identifier, client secret, issuer URL and the
requested scope string. -/
structure BasicOidcConnectorConfig where
  issuer : String
  clientId : String
  clientSecret : String
  scope : String
deriving DecidableEq, Repr

/-- Modelled from the spec: the provider metadata returned by
`fetchOidcConfig` (in `OidcConnector/utils.ts`, not among the sources).  Per
the spec's data model it carries the authorization endpoint, the token
endpoint, the key-set endpoint, and the scope published by the discovery
document (optional, since a provider need not publish one). -/
structure ProviderMetadata where
  authorizationEndpoint : String
  tokenEndpoint : String
  jwksUri : String
  scope : Option String
deriving DecidableEq, Repr

/-- The resolved configuration (`BaseOidcConfig`): the static config together
with the discovered fields. -/
structure BaseOidcConfig where
  issuer : String
  clientId : String
  clientSecret : String
  scope : String
  authorizationEndpoint : String
  tokenEndpoint : String
  jwksUri : String
deriving DecidableEq, Repr

/-- The spread `{ ...this.config, ...oidcConfig }` from `getOidcConfig`
(`index.ts`, lines 37–40): a field present in the discovered metadata
overrides the static one, because the metadata is spread second; fields the
metadata does not carry keep their static values. -/
def mergeOidcConfig (config : BasicOidcConnectorConfig) (metadata : ProviderMetadata) :
    BaseOidcConfig :=
  { issuer := config.issuer
    clientId := config.clientId
    clientSecret := config.clientSecret
    scope := metadata.scope.getD config.scope
    authorizationEndpoint := metadata.authorizationEndpoint
    tokenEndpoint := metadata.tokenEndpoint
    jwksUri := metadata.jwksUri }

/-- `getOidcConfig` (`index.ts`, lines 32–41): fetch the discovery document for
the configured issuer and merge it over the static config.  The outcome of the
network fetch is passed in as `discovered`; a fetch failure propagates. -/
def getOidcConfig (config : BasicOidcConnectorConfig)
    (discovered : Except ConnectorErrorCodes ProviderMetadata) :
    Except ConnectorErrorCodes BaseOidcConfig :=
  Except.map (mergeOidcConfig config) discovered

/-- The connector session record written by `getAuthorizationUrl` and read
back by `getUserInfo` (`SingleSignOnConnectorSession` from
`types/session.ts`, as used in `index.ts`). -/
structure SingleSignOnConnectorSession where
  nonce : String
  redirectUri : String
  connectorId : String
  state : String
deriving DecidableEq, Repr

/-- The argument object of `getAuthorizationUrl` (`index.ts`, lines 52–56). -/
structure AuthorizationParams where
  state : String
  redirectUri : String
  connectorId : String
deriving DecidableEq, Repr

/-- Modelled from the spec: `generateStandardId` (`@logto/shared`, not among
the sources) returns a fresh random identifier, distinct per call.  Randomness
is not representable here, so the generator is modelled as an injective
function of an explicit call counter: only the distinct-per-call guarantee is
captured.  `natToId` renders the counter in decimal. -/
def digitChar (d : Nat) : Char :=
  "0123456789".data.getD d '0'

/-- Little-endian decimal digits of `n`, with an explicit fuel argument so the
recursion is structural. -/
def decimalDigitsAux : Nat → Nat → List Nat
  | _, 0 => []
  | 0, _ + 1 => []
  | fuel + 1, n + 1 => (n + 1) % 10 :: decimalDigitsAux fuel ((n + 1) / 10)

/-- Little-endian decimal digits of `n` (empty for 0). -/
def decimalDigits (n : Nat) : List Nat :=
  decimalDigitsAux n n

/-- Decimal rendering of the call counter used by the modelled
`generateStandardId`. -/
def natToId (n : Nat) : String :=
  String.mk ((decimalDigits n).reverse.map digitChar)

/-- Modelled from the spec: one call of `generateStandardId`, returning the
fresh identifier and the advanced counter. -/
def generateStandardId (g : Nat) : String × Nat :=
  (natToId g, g + 1)

/-- The application/x-www-form-urlencoded byte set kept verbatim by
`URLSearchParams.toString()`: ASCII alphanumerics and `*`, `-`, `.`, `_`. -/
def isUrlencodedKeep (c : Char) : Bool :=
  let n := c.toNat
  (0x30 ≤ n && n ≤ 0x39) || (0x41 ≤ n && n ≤ 0x5A) || (0x61 ≤ n && n ≤ 0x7A) ||
    n = 0x2A || n = 0x2D || n = 0x2E || n = 0x5F

/-- UTF-8 byte sequence of a code point, used by the form-urlencoded
serializer for characters outside the kept set. -/
def utf8Bytes (n : Nat) : List Nat :=
  if n < 0x80 then [n]
  else if n < 0x800 then [0xC0 + n / 64, 0x80 + n % 64]
  else if n < 0x10000 then [0xE0 + n / 4096, 0x80 + n / 64 % 64, 0x80 + n % 64]
  else [0xF0 + n / 262144, 0x80 + n / 4096 % 64, 0x80 + n / 64 % 64, 0x80 + n % 64]

/-- Uppercase hexadecimal digit. -/
def hexDigitChar (n : Nat) : Char :=
  Char.ofNat (if n < 10 then 48 + n else 55 + n)

/-- Percent-encoding of one byte. -/
def percentByte (b : Nat) : List Char :=
  ['%', hexDigitChar (b / 16), hexDigitChar (b % 16)]

/-- One character of the WHATWG application/x-www-form-urlencoded serializer:
kept characters stay, space becomes `+`, everything else is percent-encoded
byte by byte. -/
def encodeChar (c : Char) : List Char :=
  if isUrlencodedKeep c then [c]
  else if c = ' ' then ['+']
  else (utf8Bytes c.toNat).flatMap percentByte

/-- The form-urlencoded serialization of one string, as
`URLSearchParams.toString()` applies to each name and value. -/
def formUrlEncode (s : String) : String :=
  String.mk (s.data.flatMap encodeChar)

/-- `URLSearchParams.toString()` on an ordered list of name/value pairs:
encoded pairs joined with `&`. -/
def serializeQuery : List (String × String) → String
  | [] => ""
  | [(k, v)] => formUrlEncode k ++ "=" ++ formUrlEncode v
  | (k, v) :: rest => formUrlEncode k ++ "=" ++ formUrlEncode v ++ "&" ++ serializeQuery rest

/-- Value of a hexadecimal digit character (0 for non-digits). -/
def hexVal (c : Char) : Nat :=
  let n := c.toNat
  if 48 ≤ n && n ≤ 57 then n - 48
  else if 65 ≤ n && n ≤ 70 then n - 55
  else if 97 ≤ n && n ≤ 102 then n - 87
  else 0

/-- Form-urlencoded decoding at the character-list level: `+` becomes a
space and `%XX` becomes the byte `XX` (exact for ASCII payloads, which is all
the connector's wire values use in the statements below). -/
def decodeChars : List Char → List Char
  | [] => []
  | '+' :: cs => ' ' :: decodeChars cs
  | '%' :: h₁ :: h₂ :: cs => Char.ofNat (16 * hexVal h₁ + hexVal h₂) :: decodeChars cs
  | c :: cs => c :: decodeChars cs

/-- Form-urlencoded decoding of one string. -/
def formUrlDecode (s : String) : String :=
  String.mk (decodeChars s.data)

/-- Split a character list on a separator (the separator is dropped). -/
def splitOnChar (sep : Char) : List Char → List (List Char)
  | [] => [[]]
  | c :: cs =>
    let r := splitOnChar sep cs
    if c = sep then [] :: r
    else
      match r with
      | [] => [[c]]
      | x :: xs => (c :: x) :: xs

/-- Break a character list at the first occurrence of a separator. -/
def breakOnChar (sep : Char) : List Char → List Char × List Char
  | [] => ([], [])
  | c :: cs =>
    if c = sep then ([], cs)
    else
      let p := breakOnChar sep cs
      (c :: p.1, p.2)

/-- Parse a query string into its decoded name/value pairs: split on `&`,
break each pair at the first `=`, and form-urldecode both sides. -/
def parseQuery (s : String) : List (String × String) :=
  (splitOnChar '&' s.data).map fun l =>
    let p := breakOnChar '=' l
    (String.mk (decodeChars p.1), String.mk (decodeChars p.2))

/-- Events observable during `getAuthorizationUrl`: the discovery fetch and
the session-store write, in the order performed. -/
inductive AuthEvent where
  | fetchOidcConfig
  | setSession (session : SingleSignOnConnectorSession)
deriving DecidableEq, Repr

/-- `getAuthorizationUrl` (`index.ts`, lines 51–83).  `hasSetSession` is
whether the caller supplied a session-persistence callback (`assert(setSession,
…)` rejects a missing one before anything else); `discovered` is the outcome
of the discovery fetch performed by `getOidcConfig`; `g` is the call counter
of the modelled `generateStandardId`.  Returns the event trace, the result,
and the advanced counter.  The query parameters are `state`, `nonce`, then the
snake-cased `client_id`, `response_type: 'code'`, `redirect_uri`, then
`scope`, exactly as the `URLSearchParams` literal in the source. -/
def getAuthorizationUrl (config : BasicOidcConnectorConfig)
    (params : AuthorizationParams) (hasSetSession : Bool)
    (discovered : Except ConnectorErrorCodes ProviderMetadata) (g : Nat) :
    (List AuthEvent × Except ConnectorErrorCodes String) × Nat :=
  if hasSetSession then
    match getOidcConfig config discovered with
    | .error e => (([.fetchOidcConfig], .error e), g)
    | .ok oidcConfig =>
      let idAndNext := generateStandardId g
      let nonce := idAndNext.1
      let session : SingleSignOnConnectorSession :=
        { nonce := nonce
          redirectUri := params.redirectUri
          connectorId := params.connectorId
          state := params.state }
      (([.fetchOidcConfig, .setSession session],
        .ok (oidcConfig.authorizationEndpoint ++ "?" ++ serializeQuery
          [("state", params.state), ("nonce", nonce),
           ("client_id", oidcConfig.clientId), ("response_type", "code"),
           ("redirect_uri", params.redirectUri), ("scope", oidcConfig.scope)])),
        idAndNext.2)
  else (([], .error .notImplemented), g)

/-- The raw callback payload handed to `getUserInfo`; per the spec it carries
the authorization code returned by the provider. -/
structure CallbackData where
  code : String
deriving DecidableEq, Repr

/-- The token-endpoint request built by `fetchToken`: discovered token
endpoint, client credentials, the authorization code, and the redirect URI. -/
structure TokenRequest where
  tokenEndpoint : String
  clientId : String
  clientSecret : String
  code : String
  redirectUri : String
deriving DecidableEq, Repr

/-- Modelled from the spec: the request-construction half of `fetchToken`
(`OidcConnector/utils.ts`, not among the sources) — the authorization-code
exchange is sent to the discovered token endpoint with the client
credentials, the code from the callback payload, and the redirect URI the
caller passes. -/
def fetchTokenRequest (oidcConfig : BaseOidcConfig) (data : CallbackData)
    (redirectUri : String) : TokenRequest :=
  { tokenEndpoint := oidcConfig.tokenEndpoint
    clientId := oidcConfig.clientId
    clientSecret := oidcConfig.clientSecret
    code := data.code
    redirectUri := redirectUri }

/-- The claims carried by an identity token: subject, issuer, audience,
expiration, nonce, and the optional profile/contact claims consumed by the
claims mapper. -/
structure IdTokenClaims where
  sub : String
  iss : String
  aud : List String
  exp : Nat
  nonce : String
  name : Option String
  picture : Option String
  email : Option String
  email_verified : Option Bool
  phone : Option String
  phone_verified : Option Bool
deriving DecidableEq, Repr

/-- An identity token as seen after the cryptographic layer: whether its
signature verifies against the provider's published keys, and its decoded
claims. -/
structure IdToken where
  signatureValid : Bool
  claims : IdTokenClaims
deriving DecidableEq, Repr

/-- Modelled from the spec: `getIdTokenClaims` (`OidcConnector/utils.ts`, not
among the sources).  Mandatory validation sequence, short-circuiting on the
first failure: signature, issuer equality, audience contains the client
identifier, current time before expiration, and nonce equality against the
session nonce; every failure is `InvalidIdToken`. -/
def getIdTokenClaims (idToken : IdToken) (oidcConfig : BaseOidcConfig)
    (nonce : String) (now : Nat) : Except ConnectorErrorCodes IdTokenClaims :=
  if idToken.signatureValid then
    if idToken.claims.iss = oidcConfig.issuer then
      if oidcConfig.clientId ∈ idToken.claims.aud then
        if now < idToken.claims.exp then
          if idToken.claims.nonce = nonce then .ok idToken.claims
          else .error .invalidIdToken
        else .error .invalidIdToken
      else .error .invalidIdToken
    else .error .invalidIdToken
  else .error .invalidIdToken

/-- The normalized user info returned by the callback phase
(`ExtendedSocialUserInfo`): required identifier and optional name, avatar,
email, phone. -/
structure ExtendedSocialUserInfo where
  id : String
  name : Option String
  avatar : Option String
  email : Option String
  phone : Option String
deriving DecidableEq, Repr

/-- JavaScript truthiness of an optional string: present and non-empty. -/
def truthyString : Option String → Option String
  | some s => if s = "" then none else some s
  | none => none

/-- JavaScript truthiness of an optional boolean: present and `true`. -/
def truthyBool : Option Bool → Bool
  | some b => b
  | none => false

/-- The claims-mapping return expression of `getUserInfo` (`index.ts`, lines
112–118): `id` is the subject; `name`/`avatar` are included when the claim is
truthy; `email`/`phone` are included when the claim is truthy and the
matching verified flag is truthy, mirroring
`conditional(email && email_verified && { email })`. -/
def mapClaims (c : IdTokenClaims) : ExtendedSocialUserInfo :=
  { id := c.sub
    name := truthyString c.name
    avatar := truthyString c.picture
    email :=
      match truthyString c.email with
      | some e => if truthyBool c.email_verified then some e else none
      | none => none
    phone :=
      match truthyString c.phone with
      | some p => if truthyBool c.phone_verified then some p else none
      | none => none }

/-- Events observable during `getUserInfo`: the discovery fetch and the
token-endpoint request, in the order performed. -/
inductive CallbackEvent where
  | fetchOidcConfig
  | tokenRequest (request : TokenRequest)
deriving DecidableEq, Repr

/-- `getUserInfo` (`index.ts`, lines 98–119): resolve the configuration,
exchange the code for tokens using the `redirectUri` stored in the connector
session, validate the identity token against the session nonce, and map the
verified claims.  `provider` is the token endpoint's response to the request
the connector builds; `now` is the clock the validator compares `exp`
against.  Returns the event trace alongside the result. -/
def getUserInfo (config : BasicOidcConnectorConfig)
    (discovered : Except ConnectorErrorCodes ProviderMetadata)
    (provider : TokenRequest → Except ConnectorErrorCodes IdToken) (now : Nat)
    (connectorSession : SingleSignOnConnectorSession) (data : CallbackData) :
    List CallbackEvent × Except ConnectorErrorCodes ExtendedSocialUserInfo :=
  match getOidcConfig config discovered with
  | .error e => ([.fetchOidcConfig], .error e)
  | .ok oidcConfig =>
    let request := fetchTokenRequest oidcConfig data connectorSession.redirectUri
    match provider request with
    | .error e => ([.fetchOidcConfig, .tokenRequest request], .error e)
    | .ok idToken =>
      match getIdTokenClaims idToken oidcConfig connectorSession.nonce now with
      | .error e => ([.fetchOidcConfig, .tokenRequest request], .error e)
      | .ok claims => ([.fetchOidcConfig, .tokenRequest request], .ok (mapClaims claims))

/-! ### Scenario constants and concrete inputs used by closed statements -/

/-- Static configuration of the spec's end-to-end scenario. -/
def scenarioConfig : BasicOidcConnectorConfig :=
  { issuer := "https://idp.example/oidc"
    clientId := "c1"
    clientSecret := "secret"
    scope := "openid profile email" }

/-- Discovery document of the spec's end-to-end scenario. -/
def scenarioMetadata : ProviderMetadata :=
  { authorizationEndpoint := "https://idp.example/authorize"
    tokenEndpoint := "https://idp.example/token"
    jwksUri := "https://idp.example/jwks"
    scope := none }

/-- Caller arguments of the spec's end-to-end scenario. -/
def scenarioParams : AuthorizationParams :=
  { state := "st1", redirectUri := "https://app.example/cb", connectorId := "conn1" }

/-- A discovery document whose published scope collides with the static
configuration's scope. -/
def overlapMetadata : ProviderMetadata :=
  { authorizationEndpoint := "https://idp.example/authorize"
    tokenEndpoint := "https://idp.example/token"
    jwksUri := "https://idp.example/jwks"
    scope := some "email" }

/-- Connector session of the end-to-end scenario (as stored with generator
counter 5). -/
def scenarioSession : SingleSignOnConnectorSession :=
  { nonce := "5", redirectUri := "https://app.example/cb", connectorId := "conn1",
    state := "st1" }

/-- Callback payload of the end-to-end scenario. -/
def scenarioData : CallbackData :=
  { code := "code-1" }

/-- A claim set that passes every validation step against the scenario
configuration and session. -/
def baseClaims : IdTokenClaims :=
  { sub := "user-1"
    iss := "https://idp.example/oidc"
    aud := ["c1"]
    exp := 100
    nonce := "5"
    name := some "Alice"
    picture := some "https://img.example/a.png"
    email := some "a@b.com"
    email_verified := some true
    phone := some "123"
    phone_verified := some true }

/-- A validly signed token whose every claim checks out. -/
def tokenGood : IdToken := { signatureValid := true, claims := baseClaims }

/-- A validly signed token whose nonce does not match the stored one. -/
def tokenBadNonce : IdToken :=
  { signatureValid := true, claims := { baseClaims with nonce := "bad" } }

/-- A validly signed token issued by the wrong issuer. -/
def tokenBadIss : IdToken :=
  { signatureValid := true, claims := { baseClaims with iss := "https://evil.example" } }

/-- A validly signed token that is already expired. -/
def tokenExpired : IdToken :=
  { signatureValid := true, claims := { baseClaims with exp := 10 } }

/-- A token whose signature fails verification. -/
def tokenBadSig : IdToken := { signatureValid := false, claims := baseClaims }

/-- A valid token whose email claim is the empty string with the verified
flag set. -/
def tokenEmptyEmail : IdToken :=
  { signatureValid := true, claims := { baseClaims with email := some "" } }

/-- A valid token whose email, phone, name and picture claims are all empty
strings, with both verified flags set. -/
def tokenAllEmpty : IdToken :=
  { signatureValid := true
    claims := { baseClaims with
                email := some ""
                phone := some ""
                name := some ""
                picture := some "" } }

/-! ### Helper lemmas -/

/-- `digitChar` is injective on decimal digits. -/
theorem digitChar_inj_lt :
    ∀ d₁, d₁ < 10 → ∀ d₂, d₂ < 10 → digitChar d₁ = digitChar d₂ → d₁ = d₂ := by
  decide

/-- Map by `digitChar` is injective on lists of decimal digits. -/
theorem map_digitChar_inj :
    ∀ l₁ l₂ : List Nat, (∀ d ∈ l₁, d < 10) → (∀ d ∈ l₂, d < 10) →
      l₁.map digitChar = l₂.map digitChar → l₁ = l₂ := by
  intro l₁
  induction l₁ with
  | nil =>
    intro l₂ _ _ h
    cases l₂ with
    | nil => rfl
    | cons b bs => simp at h
  | cons a as ih =>
    intro l₂ h₁ h₂ h
    cases l₂ with
    | nil => simp at h
    | cons b bs =>
      simp only [List.map_cons, List.cons.injEq] at h
      have ha : a < 10 := h₁ a (List.mem_cons_self a as)
      have hb : b < 10 := h₂ b (List.mem_cons_self b bs)
      have hab : a = b := digitChar_inj_lt a ha b hb h.1
      have htl : as = bs :=
        ih bs (fun d hd => h₁ d (List.mem_cons_of_mem a hd))
          (fun d hd => h₂ d (List.mem_cons_of_mem b hd)) h.2
      rw [hab, htl]

/-- Value of a little-endian decimal digit list. -/
def ofDecimalDigits : List Nat → Nat
  | [] => 0
  | d :: ds => d + 10 * ofDecimalDigits ds

/-- `decimalDigitsAux` is a right inverse of digit-list evaluation whenever it
has enough fuel. -/
theorem ofDecimalDigits_decimalDigitsAux :
    ∀ fuel n, n ≤ fuel → ofDecimalDigits (decimalDigitsAux fuel n) = n := by
  intro fuel
  induction fuel with
  | zero =>
    intro n hn
    have : n = 0 := Nat.le_zero.mp hn
    rw [this]
    rfl
  | succ fuel ih =>
    intro n _
    cases n with
    | zero => rfl
    | succ k =>
      have hdiv : (k + 1) / 10 ≤ fuel := by
        have := Nat.div_lt_self (Nat.succ_pos k) (by norm_num : 1 < 10)
        omega
      show ofDecimalDigits ((k + 1) % 10 :: decimalDigitsAux fuel ((k + 1) / 10)) = k + 1
      simp only [ofDecimalDigits]
      rw [ih _ hdiv]
      exact Nat.mod_add_div (k + 1) 10

/-- `decimalDigits` is injective. -/
theorem decimalDigits_injective {m n : Nat} (h : decimalDigits m = decimalDigits n) :
    m = n := by
  have hm := ofDecimalDigits_decimalDigitsAux m m le_rfl
  have hn := ofDecimalDigits_decimalDigitsAux n n le_rfl
  calc m = ofDecimalDigits (decimalDigits m) := hm.symm
    _ = ofDecimalDigits (decimalDigits n) := by rw [h]
    _ = n := hn

/-- Every decimal digit produced is below 10. -/
theorem decimalDigitsAux_lt :
    ∀ fuel n, ∀ d ∈ decimalDigitsAux fuel n, d < 10 := by
  intro fuel
  induction fuel with
  | zero =>
    intro n d hd
    cases n <;> simp [decimalDigitsAux] at hd
  | succ fuel ih =>
    intro n d hd
    cases n with
    | zero => simp [decimalDigitsAux] at hd
    | succ k =>
      simp only [decimalDigitsAux, List.mem_cons] at hd
      rcases hd with h | h
      · rw [h]
        exact Nat.mod_lt _ (by norm_num)
      · exact ih _ d h

/-- The modelled identifier generator never repeats: `natToId` is injective. -/
theorem natToId_injective {m n : Nat} (h : natToId m = natToId n) : m = n := by
  have hdata : ((decimalDigits m).reverse.map digitChar) =
      ((decimalDigits n).reverse.map digitChar) := congrArg String.data h
  have hrev : (decimalDigits m).reverse = (decimalDigits n).reverse :=
    map_digitChar_inj _ _
      (fun d hd => decimalDigitsAux_lt m m d (List.mem_reverse.mp hd))
      (fun d hd => decimalDigitsAux_lt n n d (List.mem_reverse.mp hd)) hdata
  exact decimalDigits_injective (List.reverse_inj.mp hrev)

/-- Every character produced by `digitChar` survives form-url encoding
unchanged and is neither `+` nor `%`. -/
theorem digitChar_keep (d : Nat) :
    isUrlencodedKeep (digitChar d) = true ∧ digitChar d ≠ '+' ∧ digitChar d ≠ '%' := by
  by_cases h : d < 10
  · revert h
    have : ∀ e, e < 10 →
        isUrlencodedKeep (digitChar e) = true ∧ digitChar e ≠ '+' ∧ digitChar e ≠ '%' := by
      decide
    exact this d
  · have hlen : ("0123456789".data).length ≤ d := by
      have : ("0123456789".data).length = 10 := by decide
      omega
    have hdef : digitChar d = '0' := by
      unfold digitChar
      exact List.getD_eq_default _ _ hlen
    rw [hdef]
    refine ⟨by decide, by decide, by decide⟩

/-- `encodeChar` keeps a kept character verbatim. -/
theorem encodeChar_keep {c : Char} (h : isUrlencodedKeep c = true) :
    encodeChar c = [c] := by
  unfold encodeChar
  rw [if_pos h]

/-- Encoding a list of kept characters is the identity. -/
theorem flatMap_encodeChar_id :
    ∀ l : List Char, (∀ c ∈ l, encodeChar c = [c]) → l.flatMap encodeChar = l := by
  intro l
  induction l with
  | nil => intro _; rfl
  | cons a as ih =>
    intro h
    rw [List.flatMap_cons, h a (List.mem_cons_self a as),
      ih (fun c hc => h c (List.mem_cons_of_mem a hc))]
    rfl

/-- Unfolding `decodeChars` on a head that is neither `+` nor `%`. -/
theorem decodeChars_cons_ne {a : Char} (as : List Char) (h1 : a ≠ '+') (h2 : a ≠ '%') :
    decodeChars (a :: as) = a :: decodeChars as := by
  rw [decodeChars.eq_def]
  split
  · rename_i heq
    simp at heq
  · rename_i cs heq
    simp only [List.cons.injEq] at heq
    exact absurd heq.1 h1
  · rename_i h₁ h₂ cs heq
    simp only [List.cons.injEq] at heq
    exact absurd heq.1 h2
  · rename_i c cs heq
    simp only [List.cons.injEq] at heq
    rw [← heq.1, ← heq.2]

/-- Decoding a list without `+` and `%` is the identity. -/
theorem decodeChars_id :
    ∀ l : List Char, (∀ c ∈ l, c ≠ '+' ∧ c ≠ '%') → decodeChars l = l := by
  intro l
  induction l with
  | nil => intro _; rfl
  | cons a as ih =>
    intro h
    have ha := h a (List.mem_cons_self a as)
    have has : ∀ c ∈ as, c ≠ '+' ∧ c ≠ '%' := fun c hc => h c (List.mem_cons_of_mem a hc)
    rw [decodeChars_cons_ne as ha.1 ha.2, ih has]

/-- Characters of a generated identifier are kept by the form-urlencoded
serializer and contain no `+` or `%`. -/
theorem natToId_chars (n : Nat) :
    ∀ c ∈ (natToId n).data, isUrlencodedKeep c = true ∧ c ≠ '+' ∧ c ≠ '%' := by
  intro c hc
  have hc' : c ∈ (decimalDigits n).reverse.map digitChar := hc
  obtain ⟨d, _, rfl⟩ := List.mem_map.mp hc'
  exact digitChar_keep d

/-- A generated identifier is its own form-urlencoded serialization. -/
theorem formUrlEncode_natToId (n : Nat) : formUrlEncode (natToId n) = natToId n := by
  have h : ((natToId n).data).flatMap encodeChar = (natToId n).data :=
    flatMap_encodeChar_id _ (fun c hc => encodeChar_keep (natToId_chars n c hc).1)
  show String.mk ((natToId n).data.flatMap encodeChar) = natToId n
  rw [h]

/-- A generated identifier is its own form-urlencoded decoding. -/
theorem formUrlDecode_natToId (n : Nat) : formUrlDecode (natToId n) = natToId n := by
  have h : decodeChars (natToId n).data = (natToId n).data :=
    decodeChars_id _ (fun c hc => (natToId_chars n c hc).2)
  show String.mk (decodeChars (natToId n).data) = natToId n
  rw [h]

/-- Explicit value of a successful `getAuthorizationUrl` run: one discovery
fetch, one session write carrying the fresh nonce and the caller's arguments,
the authorization URL built over the discovered endpoint, and the advanced
generator counter. -/
theorem getAuthorizationUrl_ok_eq (config : BasicOidcConnectorConfig)
    (params : AuthorizationParams) (m : ProviderMetadata) (g : Nat) :
    getAuthorizationUrl config params true (.ok m) g =
      (([.fetchOidcConfig,
         .setSession { nonce := natToId g, redirectUri := params.redirectUri,
                       connectorId := params.connectorId, state := params.state }],
        .ok ((mergeOidcConfig config m).authorizationEndpoint ++ "?" ++ serializeQuery
          [("state", params.state), ("nonce", natToId g),
           ("client_id", (mergeOidcConfig config m).clientId), ("response_type", "code"),
           ("redirect_uri", params.redirectUri), ("scope", (mergeOidcConfig config m).scope)])),
       g + 1) := rfl

/-! ### Claim theorems -/

/-- C3: a call to `getAuthorizationUrl` with no session-persistence callback
fails with `NotImplemented` before any other effect: the event trace is empty
(in particular no discovery fetch and no session write), and the generator
counter is untouched — for every input. -/
theorem getAuthorizationUrl_requires_session_storage
    (config : BasicOidcConnectorConfig) (params : AuthorizationParams)
    (discovered : Except ConnectorErrorCodes ProviderMetadata) (g : Nat) :
    getAuthorizationUrl config params false discovered g =
      (([], .error .notImplemented), g) := rfl

/-- C4: two calls to `getAuthorizationUrl` with identical inputs store
sessions with different nonces — the second call runs on the generator state
the first call returned, and the modelled generator never repeats. -/
theorem getAuthorizationUrl_distinct_nonces (config : BasicOidcConnectorConfig)
    (params : AuthorizationParams) (m : ProviderMetadata) (g : Nat)
    (s₁ s₂ : SingleSignOnConnectorSession)
    (h₁ : (getAuthorizationUrl config params true (.ok m) g).1.1 =
      [.fetchOidcConfig, .setSession s₁])
    (h₂ : (getAuthorizationUrl config params true (.ok m)
        ((getAuthorizationUrl config params true (.ok m) g).2)).1.1 =
      [.fetchOidcConfig, .setSession s₂]) :
    s₁.nonce ≠ s₂.nonce := by
  simp only [getAuthorizationUrl_ok_eq, List.cons.injEq, and_true, true_and,
    AuthEvent.setSession.injEq] at h₁ h₂
  have n₁ : s₁.nonce = natToId g := by rw [← h₁]
  have n₂ : s₂.nonce = natToId (g + 1) := by rw [← h₂]
  intro hEq
  rw [n₁, n₂] at hEq
  have := natToId_injective hEq
  omega

/-- C4 witness: with the scenario inputs and generator counter 5, the two
stored sessions carry nonces `5` and `6`. -/
theorem getAuthorizationUrl_distinct_nonces_witness :
    ({ nonce := "5", redirectUri := "https://app.example/cb", connectorId := "conn1",
       state := "st1" } : SingleSignOnConnectorSession).nonce ≠
      ({ nonce := "6", redirectUri := "https://app.example/cb", connectorId := "conn1",
         state := "st1" } : SingleSignOnConnectorSession).nonce :=
  getAuthorizationUrl_distinct_nonces scenarioConfig scenarioParams scenarioMetadata 5 _ _
    rfl rfl

/-- C5: every successful `getAuthorizationUrl` result is the discovered
authorization endpoint followed by `?` and a query string holding exactly the
parameters `state`, `nonce`, `client_id`, `response_type=code`, `redirect_uri`
and `scope` under their snake-cased wire names; in the spec's scenario the
returned URL is rooted at `https://idp.example/authorize` and its parsed query
is exactly `state=st1`, the fresh nonce `5`, `client_id=c1`,
`response_type=code`, the caller's redirect URI and the configured scope — the
serializer writes the scope's spaces as `+`, which decodes to the same value
as the `%20` form quoted by the spec. -/
theorem getAuthorizationUrl_wire_format (config : BasicOidcConnectorConfig)
    (params : AuthorizationParams) (m : ProviderMetadata) (g : Nat) :
    ((getAuthorizationUrl config params true (.ok m) g).1.2 =
      .ok ((mergeOidcConfig config m).authorizationEndpoint ++ "?" ++ serializeQuery
        [("state", params.state), ("nonce", natToId g),
         ("client_id", config.clientId), ("response_type", "code"),
         ("redirect_uri", params.redirectUri), ("scope", (mergeOidcConfig config m).scope)]))
    ∧ ((getAuthorizationUrl scenarioConfig scenarioParams true (.ok scenarioMetadata) 5).1.2 =
      .ok ("https://idp.example/authorize?state=st1&nonce=5&client_id=c1&response_type=code&redirect_uri=https%3A%2F%2Fapp.example%2Fcb&scope=openid+profile+email"))
    ∧ parseQuery "state=st1&nonce=5&client_id=c1&response_type=code&redirect_uri=https%3A%2F%2Fapp.example%2Fcb&scope=openid+profile+email" =
      [("state", "st1"), ("nonce", "5"), ("client_id", "c1"), ("response_type", "code"),
       ("redirect_uri", "https://app.example/cb"), ("scope", "openid profile email")]
    ∧ natToId 5 = "5"
    ∧ formUrlDecode "openid%20profile%20email" = "openid profile email" :=
  ⟨rfl, rfl, rfl, rfl, rfl⟩

/-- C6: every successful `getAuthorizationUrl` run invokes the persistence
callback exactly once, with a record whose `redirectUri`, `connectorId` and
`state` equal the caller's arguments and whose `nonce` is the value of the
`nonce` query parameter of the returned URL — the nonce is written into the
query string verbatim (its form-urlencoding is itself) and decodes to
itself. -/
theorem getAuthorizationUrl_persists_session_once (config : BasicOidcConnectorConfig)
    (params : AuthorizationParams) (m : ProviderMetadata) (g : Nat) :
    ∃ s : SingleSignOnConnectorSession,
      (getAuthorizationUrl config params true (.ok m) g).1.1 =
        [.fetchOidcConfig, .setSession s]
      ∧ s.redirectUri = params.redirectUri
      ∧ s.connectorId = params.connectorId
      ∧ s.state = params.state
      ∧ (getAuthorizationUrl config params true (.ok m) g).1.2 =
          .ok ((mergeOidcConfig config m).authorizationEndpoint ++ "?" ++ serializeQuery
            [("state", params.state), ("nonce", s.nonce),
             ("client_id", config.clientId), ("response_type", "code"),
             ("redirect_uri", params.redirectUri), ("scope", (mergeOidcConfig config m).scope)])
      ∧ formUrlEncode s.nonce = s.nonce
      ∧ formUrlDecode s.nonce = s.nonce :=
  ⟨{ nonce := natToId g, redirectUri := params.redirectUri,
     connectorId := params.connectorId, state := params.state },
    rfl, rfl, rfl, rfl, rfl, formUrlEncode_natToId g, formUrlDecode_natToId g⟩

/-- C7 counterexample: the merge in `getOidcConfig` spreads the discovered
metadata after the static config, so a non-endpoint field specified by both —
the scope — takes the discovered value, not the static one, contradicting the
claim that the static value wins. -/
theorem getOidcConfig_static_override_cex :
    getOidcConfig scenarioConfig (.ok overlapMetadata) =
      .ok (mergeOidcConfig scenarioConfig overlapMetadata)
    ∧ scenarioConfig.scope = "openid profile email"
    ∧ overlapMetadata.scope = some "email"
    ∧ (mergeOidcConfig scenarioConfig overlapMetadata).scope = "email"
    ∧ (mergeOidcConfig scenarioConfig overlapMetadata).scope ≠ scenarioConfig.scope :=
  ⟨rfl, rfl, rfl, rfl, by decide⟩

/-- C7 amended: when `getOidcConfig` merges the static config with the
discovered metadata, every field specified by both takes the discovered
value (the metadata is spread second); endpoint fields always come from
discovery, and fields the metadata does not carry keep their static
values. -/
theorem getOidcConfig_merge_discovered_wins (config : BasicOidcConnectorConfig)
    (m : ProviderMetadata) :
    getOidcConfig config (.ok m) = .ok (mergeOidcConfig config m)
    ∧ (mergeOidcConfig config m).authorizationEndpoint = m.authorizationEndpoint
    ∧ (mergeOidcConfig config m).tokenEndpoint = m.tokenEndpoint
    ∧ (mergeOidcConfig config m).jwksUri = m.jwksUri
    ∧ (∀ s, m.scope = some s → (mergeOidcConfig config m).scope = s)
    ∧ (m.scope = none → (mergeOidcConfig config m).scope = config.scope)
    ∧ (mergeOidcConfig config m).issuer = config.issuer
    ∧ (mergeOidcConfig config m).clientId = config.clientId
    ∧ (mergeOidcConfig config m).clientSecret = config.clientSecret := by
  refine ⟨rfl, rfl, rfl, rfl, ?_, ?_, rfl, rfl, rfl⟩
  · intro s hs
    simp [mergeOidcConfig, hs]
  · intro hs
    simp [mergeOidcConfig, hs]

/-- C7 amended witness: a discovered scope overrides the static scope, and an
absent discovered scope keeps the static one. -/
theorem getOidcConfig_merge_discovered_wins_witness :
    (mergeOidcConfig scenarioConfig overlapMetadata).scope = "email"
    ∧ (mergeOidcConfig scenarioConfig scenarioMetadata).scope = "openid profile email" :=
  ⟨(getOidcConfig_merge_discovered_wins scenarioConfig overlapMetadata).2.2.2.2.1 "email" rfl,
    (getOidcConfig_merge_discovered_wins scenarioConfig scenarioMetadata).2.2.2.2.2.1 rfl⟩

/-- C8: for every valid discovery document, the endpoint fields of the
resolved configuration returned by `getOidcConfig` equal the discovered
values. -/
theorem getOidcConfig_endpoints_from_discovery (config : BasicOidcConnectorConfig)
    (m : ProviderMetadata) :
    getOidcConfig config (.ok m) = .ok (mergeOidcConfig config m)
    ∧ (mergeOidcConfig config m).authorizationEndpoint = m.authorizationEndpoint
    ∧ (mergeOidcConfig config m).tokenEndpoint = m.tokenEndpoint :=
  ⟨rfl, rfl, rfl⟩

/-! ### Callback-side helper lemmas -/

/-- A failed discovery fetch aborts `getUserInfo` after the fetch alone. -/
theorem getUserInfo_discovery_error (config : BasicOidcConnectorConfig)
    (e : ConnectorErrorCodes) (provider : TokenRequest → Except ConnectorErrorCodes IdToken)
    (now : Nat) (s : SingleSignOnConnectorSession) (d : CallbackData) :
    getUserInfo config (.error e) provider now s d = ([.fetchOidcConfig], .error e) := rfl

/-- Value of `getUserInfo` when the token exchange fails. -/
theorem getUserInfo_exchange_error (config : BasicOidcConnectorConfig)
    (m : ProviderMetadata) (provider : TokenRequest → Except ConnectorErrorCodes IdToken)
    (now : Nat) (s : SingleSignOnConnectorSession) (d : CallbackData)
    (e : ConnectorErrorCodes)
    (hp : provider (fetchTokenRequest (mergeOidcConfig config m) d s.redirectUri) = .error e) :
    getUserInfo config (.ok m) provider now s d =
      ([.fetchOidcConfig,
        .tokenRequest (fetchTokenRequest (mergeOidcConfig config m) d s.redirectUri)],
       .error e) := by
  simp only [getUserInfo, getOidcConfig, Except.map, hp]

/-- Value of `getUserInfo` when the token exchange returns a token: the trace
holds the fetch and the one token request, and the result is the validated
claims mapped, or the validation error. -/
theorem getUserInfo_eq_of_token (config : BasicOidcConnectorConfig)
    (m : ProviderMetadata) (provider : TokenRequest → Except ConnectorErrorCodes IdToken)
    (now : Nat) (s : SingleSignOnConnectorSession) (d : CallbackData) (t : IdToken)
    (hp : provider (fetchTokenRequest (mergeOidcConfig config m) d s.redirectUri) = .ok t) :
    getUserInfo config (.ok m) provider now s d =
      ([.fetchOidcConfig,
        .tokenRequest (fetchTokenRequest (mergeOidcConfig config m) d s.redirectUri)],
       (getIdTokenClaims t (mergeOidcConfig config m) s.nonce now).map mapClaims) := by
  simp only [getUserInfo, getOidcConfig, Except.map, hp]
  cases getIdTokenClaims t (mergeOidcConfig config m) s.nonce now <;> rfl

/-- Successful validation returns the token's claims. -/
theorem getIdTokenClaims_ok (t : IdToken) (cfg : BaseOidcConfig) (nonce : String)
    (now : Nat) (hsig : t.signatureValid = true) (hiss : t.claims.iss = cfg.issuer)
    (haud : cfg.clientId ∈ t.claims.aud) (hexp : now < t.claims.exp)
    (hnonce : t.claims.nonce = nonce) :
    getIdTokenClaims t cfg nonce now = .ok t.claims := by
  simp [getIdTokenClaims, hsig, hiss, haud, hexp, hnonce]

/-- A nonce mismatch is rejected with `InvalidIdToken` even when every other
check passes. -/
theorem getIdTokenClaims_error_nonce (t : IdToken) (cfg : BaseOidcConfig) (nonce : String)
    (now : Nat) (hsig : t.signatureValid = true) (hiss : t.claims.iss = cfg.issuer)
    (haud : cfg.clientId ∈ t.claims.aud) (hexp : now < t.claims.exp)
    (hnonce : t.claims.nonce ≠ nonce) :
    getIdTokenClaims t cfg nonce now = .error .invalidIdToken := by
  simp [getIdTokenClaims, hsig, hiss, haud, hexp, hnonce]

/-- An issuer mismatch is rejected with `InvalidIdToken`. -/
theorem getIdTokenClaims_error_iss (t : IdToken) (cfg : BaseOidcConfig) (nonce : String)
    (now : Nat) (hsig : t.signatureValid = true) (hiss : t.claims.iss ≠ cfg.issuer) :
    getIdTokenClaims t cfg nonce now = .error .invalidIdToken := by
  simp [getIdTokenClaims, hsig, hiss]

/-- An expired token is rejected with `InvalidIdToken` even when every other
check passes. -/
theorem getIdTokenClaims_error_exp (t : IdToken) (cfg : BaseOidcConfig) (nonce : String)
    (now : Nat) (hsig : t.signatureValid = true) (hiss : t.claims.iss = cfg.issuer)
    (haud : cfg.clientId ∈ t.claims.aud) (hexp : ¬ now < t.claims.exp) :
    getIdTokenClaims t cfg nonce now = .error .invalidIdToken := by
  simp [getIdTokenClaims, hsig, hiss, haud, hexp]

/-- A failed signature is rejected with `InvalidIdToken` before any claim is
inspected. -/
theorem getIdTokenClaims_error_sig (t : IdToken) (cfg : BaseOidcConfig) (nonce : String)
    (now : Nat) (hsig : t.signatureValid = false) :
    getIdTokenClaims t cfg nonce now = .error .invalidIdToken := by
  simp [getIdTokenClaims, hsig]

/-- The mapped user info carries an email exactly when the email claim is
present with a non-empty value and the verified flag is exactly `true`. -/
theorem mapClaims_email_iff (c : IdTokenClaims) (e : String) :
    (mapClaims c).email = some e ↔
      c.email = some e ∧ e ≠ "" ∧ c.email_verified = some true := by
  cases hce : c.email with
  | none => simp [mapClaims, truthyString, hce]
  | some v =>
    cases hcv : c.email_verified with
    | none =>
      by_cases hv : v = "" <;>
        simp [mapClaims, truthyString, truthyBool, hce, hcv, hv]
    | some b =>
      cases b with
      | false =>
        by_cases hv : v = "" <;>
          simp [mapClaims, truthyString, truthyBool, hce, hcv, hv]
      | true =>
        by_cases hv : v = ""
        · subst hv
          simp [mapClaims, truthyString, truthyBool, hce, hcv]
          exact fun h => h.symm
        · simp [mapClaims, truthyString, truthyBool, hce, hcv, hv]
          exact fun h he => hv (h.trans he)

/-- The mapped user info carries a phone exactly when the phone claim is
present with a non-empty value and the verified flag is exactly `true`. -/
theorem mapClaims_phone_iff (c : IdTokenClaims) (p : String) :
    (mapClaims c).phone = some p ↔
      c.phone = some p ∧ p ≠ "" ∧ c.phone_verified = some true := by
  cases hce : c.phone with
  | none => simp [mapClaims, truthyString, hce]
  | some v =>
    cases hcv : c.phone_verified with
    | none =>
      by_cases hv : v = "" <;>
        simp [mapClaims, truthyString, truthyBool, hce, hcv, hv]
    | some b =>
      cases b with
      | false =>
        by_cases hv : v = "" <;>
          simp [mapClaims, truthyString, truthyBool, hce, hcv, hv]
      | true =>
        by_cases hv : v = ""
        · subst hv
          simp [mapClaims, truthyString, truthyBool, hce, hcv]
          exact fun h => h.symm
        · simp [mapClaims, truthyString, truthyBool, hce, hcv, hv]
          exact fun h he => hv (h.trans he)

/-- An empty-string email claim is dropped by the mapper. -/
theorem mapClaims_empty_email (c : IdTokenClaims) (h : c.email = some "") :
    (mapClaims c).email = none := by
  simp [mapClaims, truthyString, h]

/-- An empty-string phone claim is dropped by the mapper. -/
theorem mapClaims_empty_phone (c : IdTokenClaims) (h : c.phone = some "") :
    (mapClaims c).phone = none := by
  simp [mapClaims, truthyString, h]

/-- An empty-string name claim is dropped by the mapper. -/
theorem mapClaims_empty_name (c : IdTokenClaims) (h : c.name = some "") :
    (mapClaims c).name = none := by
  simp [mapClaims, truthyString, h]

/-- An empty-string picture claim yields no avatar. -/
theorem mapClaims_empty_picture (c : IdTokenClaims) (h : c.picture = some "") :
    (mapClaims c).avatar = none := by
  simp [mapClaims, truthyString, h]

/-- C1: `getUserInfo` fails with `InvalidIdToken` whenever a single
identity-token validation step fails while the other checks hold — a nonce
claim differing from the session's stored nonce, an issuer claim differing
from the configured issuer, an expired token, or a failed signature — and in
each such case no user info is produced; a failed signature is rejected even
with no assumption on the remaining claims, exhibiting the short-circuit on
the first failing check. -/
theorem getUserInfo_invalidIdToken_cases (config : BasicOidcConnectorConfig)
    (m : ProviderMetadata) (now : Nat) (s : SingleSignOnConnectorSession)
    (d : CallbackData) :
    (∀ (provider : TokenRequest → Except ConnectorErrorCodes IdToken) (t : IdToken),
      provider (fetchTokenRequest (mergeOidcConfig config m) d s.redirectUri) = .ok t →
      t.signatureValid = true → t.claims.iss = (mergeOidcConfig config m).issuer →
      (mergeOidcConfig config m).clientId ∈ t.claims.aud → now < t.claims.exp →
      t.claims.nonce ≠ s.nonce →
      (getUserInfo config (.ok m) provider now s d).2 = .error .invalidIdToken)
    ∧ (∀ (provider : TokenRequest → Except ConnectorErrorCodes IdToken) (t : IdToken),
      provider (fetchTokenRequest (mergeOidcConfig config m) d s.redirectUri) = .ok t →
      t.signatureValid = true → t.claims.iss ≠ (mergeOidcConfig config m).issuer →
      (mergeOidcConfig config m).clientId ∈ t.claims.aud → now < t.claims.exp →
      t.claims.nonce = s.nonce →
      (getUserInfo config (.ok m) provider now s d).2 = .error .invalidIdToken)
    ∧ (∀ (provider : TokenRequest → Except ConnectorErrorCodes IdToken) (t : IdToken),
      provider (fetchTokenRequest (mergeOidcConfig config m) d s.redirectUri) = .ok t →
      t.signatureValid = true → t.claims.iss = (mergeOidcConfig config m).issuer →
      (mergeOidcConfig config m).clientId ∈ t.claims.aud → ¬ now < t.claims.exp →
      t.claims.nonce = s.nonce →
      (getUserInfo config (.ok m) provider now s d).2 = .error .invalidIdToken)
    ∧ (∀ (provider : TokenRequest → Except ConnectorErrorCodes IdToken) (t : IdToken),
      provider (fetchTokenRequest (mergeOidcConfig config m) d s.redirectUri) = .ok t →
      t.signatureValid = false → t.claims.iss = (mergeOidcConfig config m).issuer →
      (mergeOidcConfig config m).clientId ∈ t.claims.aud → now < t.claims.exp →
      t.claims.nonce = s.nonce →
      (getUserInfo config (.ok m) provider now s d).2 = .error .invalidIdToken)
    ∧ (∀ (provider : TokenRequest → Except ConnectorErrorCodes IdToken) (t : IdToken),
      provider (fetchTokenRequest (mergeOidcConfig config m) d s.redirectUri) = .ok t →
      t.signatureValid = false →
      (getUserInfo config (.ok m) provider now s d).2 = .error .invalidIdToken) := by
  refine ⟨?_, ?_, ?_, ?_, ?_⟩
  · intro provider t hp hsig hiss haud hexp hnonce
    rw [getUserInfo_eq_of_token config m provider now s d t hp,
      getIdTokenClaims_error_nonce t _ _ _ hsig hiss haud hexp hnonce]
    rfl
  · intro provider t hp hsig hiss _ _ _
    rw [getUserInfo_eq_of_token config m provider now s d t hp,
      getIdTokenClaims_error_iss t _ _ _ hsig hiss]
    rfl
  · intro provider t hp hsig hiss haud hexp _
    rw [getUserInfo_eq_of_token config m provider now s d t hp,
      getIdTokenClaims_error_exp t _ _ _ hsig hiss haud hexp]
    rfl
  · intro provider t hp hsig _ _ _ _
    rw [getUserInfo_eq_of_token config m provider now s d t hp,
      getIdTokenClaims_error_sig t _ _ _ hsig]
    rfl
  · intro provider t hp hsig
    rw [getUserInfo_eq_of_token config m provider now s d t hp,
      getIdTokenClaims_error_sig t _ _ _ hsig]
    rfl

/-- C1 witness: concrete runs for the nonce-mismatch, issuer-mismatch,
expired and bad-signature cases each return `InvalidIdToken`. -/
theorem getUserInfo_invalidIdToken_cases_witness :
    (getUserInfo scenarioConfig (.ok scenarioMetadata) (fun _ => .ok tokenBadNonce) 50
      scenarioSession scenarioData).2 = .error .invalidIdToken
    ∧ (getUserInfo scenarioConfig (.ok scenarioMetadata) (fun _ => .ok tokenBadIss) 50
      scenarioSession scenarioData).2 = .error .invalidIdToken
    ∧ (getUserInfo scenarioConfig (.ok scenarioMetadata) (fun _ => .ok tokenExpired) 50
      scenarioSession scenarioData).2 = .error .invalidIdToken
    ∧ (getUserInfo scenarioConfig (.ok scenarioMetadata) (fun _ => .ok tokenBadSig) 50
      scenarioSession scenarioData).2 = .error .invalidIdToken := by
  have h := getUserInfo_invalidIdToken_cases scenarioConfig scenarioMetadata 50
    scenarioSession scenarioData
  exact ⟨h.1 _ tokenBadNonce rfl rfl rfl (by decide) (by decide) (by decide),
    h.2.1 _ tokenBadIss rfl rfl (by decide) (by decide) (by decide) rfl,
    h.2.2.1 _ tokenExpired rfl rfl rfl (by decide) (by decide) rfl,
    h.2.2.2.1 _ tokenBadSig rfl rfl rfl (by decide) (by decide) rfl⟩

/-- C2 counterexample: a claim set whose email is present as the empty string
with the verified flag true — every validation step passes, yet the returned
user info has no email field, refuting the presence-only reading of the
claim. -/
theorem getUserInfo_email_iff_cex :
    (getUserInfo scenarioConfig (.ok scenarioMetadata) (fun _ => .ok tokenEmptyEmail) 50
      scenarioSession scenarioData).2 =
      .ok { id := "user-1", name := some "Alice", avatar := some "https://img.example/a.png",
            email := none, phone := some "123" }
    ∧ tokenEmptyEmail.claims.email = some ""
    ∧ tokenEmptyEmail.claims.email_verified = some true :=
  ⟨rfl, rfl, rfl⟩

/-- C2 amended: for every verified claim set, the user info returned by
`getUserInfo` contains an email field iff the email claim is present with a
non-empty value and the emailVerified claim is exactly true; symmetrically
for phone — in particular an unverified email or phone is never included. -/
theorem getUserInfo_verified_claims_gating (config : BasicOidcConnectorConfig)
    (m : ProviderMetadata) (provider : TokenRequest → Except ConnectorErrorCodes IdToken)
    (now : Nat) (s : SingleSignOnConnectorSession) (d : CallbackData) (t : IdToken)
    (hp : provider (fetchTokenRequest (mergeOidcConfig config m) d s.redirectUri) = .ok t)
    (hsig : t.signatureValid = true)
    (hiss : t.claims.iss = (mergeOidcConfig config m).issuer)
    (haud : (mergeOidcConfig config m).clientId ∈ t.claims.aud)
    (hexp : now < t.claims.exp)
    (hnonce : t.claims.nonce = s.nonce) :
    (getUserInfo config (.ok m) provider now s d).2 = .ok (mapClaims t.claims)
    ∧ (∀ e, (mapClaims t.claims).email = some e ↔
        t.claims.email = some e ∧ e ≠ "" ∧ t.claims.email_verified = some true)
    ∧ (∀ p, (mapClaims t.claims).phone = some p ↔
        t.claims.phone = some p ∧ p ≠ "" ∧ t.claims.phone_verified = some true) := by
  refine ⟨?_, fun e => mapClaims_email_iff t.claims e, fun p => mapClaims_phone_iff t.claims p⟩
  rw [getUserInfo_eq_of_token config m provider now s d t hp,
    getIdTokenClaims_ok t _ _ _ hsig hiss haud hexp hnonce]
  rfl

/-- C2 amended witness: the scenario token passes every check and its
verified non-empty email is surfaced. -/
theorem getUserInfo_verified_claims_gating_witness :
    (getUserInfo scenarioConfig (.ok scenarioMetadata) (fun _ => .ok tokenGood) 50
      scenarioSession scenarioData).2 = .ok (mapClaims tokenGood.claims)
    ∧ ((mapClaims tokenGood.claims).email = some "a@b.com" ↔
        tokenGood.claims.email = some "a@b.com" ∧ "a@b.com" ≠ "" ∧
          tokenGood.claims.email_verified = some true) := by
  have h := getUserInfo_verified_claims_gating scenarioConfig scenarioMetadata
    (fun _ => .ok tokenGood) 50 scenarioSession scenarioData tokenGood rfl rfl rfl
    (by decide) (by decide) rfl
  exact ⟨h.1, h.2.1 "a@b.com"⟩

/-- C9: inclusion of the optional user-info fields requires a truthy
(non-empty) claim, not mere presence: on a fully validated token, an
empty-string email claim (even with the verified flag true) yields no email
field, and likewise for phone, name and picture/avatar. -/
theorem getUserInfo_empty_string_claims (config : BasicOidcConnectorConfig)
    (m : ProviderMetadata) (provider : TokenRequest → Except ConnectorErrorCodes IdToken)
    (now : Nat) (s : SingleSignOnConnectorSession) (d : CallbackData) (t : IdToken)
    (hp : provider (fetchTokenRequest (mergeOidcConfig config m) d s.redirectUri) = .ok t)
    (hsig : t.signatureValid = true)
    (hiss : t.claims.iss = (mergeOidcConfig config m).issuer)
    (haud : (mergeOidcConfig config m).clientId ∈ t.claims.aud)
    (hexp : now < t.claims.exp)
    (hnonce : t.claims.nonce = s.nonce) :
    (getUserInfo config (.ok m) provider now s d).2 = .ok (mapClaims t.claims)
    ∧ (t.claims.email = some "" → (mapClaims t.claims).email = none)
    ∧ (t.claims.phone = some "" → (mapClaims t.claims).phone = none)
    ∧ (t.claims.name = some "" → (mapClaims t.claims).name = none)
    ∧ (t.claims.picture = some "" → (mapClaims t.claims).avatar = none) := by
  refine ⟨?_, mapClaims_empty_email t.claims, mapClaims_empty_phone t.claims,
    mapClaims_empty_name t.claims, mapClaims_empty_picture t.claims⟩
  rw [getUserInfo_eq_of_token config m provider now s d t hp,
    getIdTokenClaims_ok t _ _ _ hsig hiss haud hexp hnonce]
  rfl

/-- C9 witness: a validated token whose email, phone, name and picture claims
are all empty strings yields a user info with none of the four optional
fields. -/
theorem getUserInfo_empty_string_claims_witness :
    (getUserInfo scenarioConfig (.ok scenarioMetadata) (fun _ => .ok tokenAllEmpty) 50
      scenarioSession scenarioData).2 = .ok (mapClaims tokenAllEmpty.claims)
    ∧ (mapClaims tokenAllEmpty.claims).email = none
    ∧ (mapClaims tokenAllEmpty.claims).phone = none
    ∧ (mapClaims tokenAllEmpty.claims).name = none
    ∧ (mapClaims tokenAllEmpty.claims).avatar = none := by
  have h := getUserInfo_empty_string_claims scenarioConfig scenarioMetadata
    (fun _ => .ok tokenAllEmpty) 50 scenarioSession scenarioData tokenAllEmpty rfl rfl rfl
    (by decide) (by decide) rfl
  exact ⟨h.1, h.2.1 rfl, h.2.2.1 rfl, h.2.2.2.1 rfl, h.2.2.2.2 rfl⟩

/-- C10: the token exchange uses exactly the `redirectUri` field read from the
session record passed to `getUserInfo` — every token request in a callback
trace carries the session's redirect URI — and the session stored by
`getAuthorizationUrl` carries the caller's redirect URI, so a flow session
passed back unchanged sends the redirect URI of the original authorization
request to the token endpoint. -/
theorem getUserInfo_redirectUri_from_session (config : BasicOidcConnectorConfig)
    (discovered : Except ConnectorErrorCodes ProviderMetadata)
    (provider : TokenRequest → Except ConnectorErrorCodes IdToken) (now : Nat)
    (s : SingleSignOnConnectorSession) (d : CallbackData) :
    (∀ req : TokenRequest,
      CallbackEvent.tokenRequest req ∈ (getUserInfo config discovered provider now s d).1 →
      req.redirectUri = s.redirectUri)
    ∧ (∀ (params : AuthorizationParams) (hasS : Bool)
        (disc : Except ConnectorErrorCodes ProviderMetadata) (g : Nat)
        (s' : SingleSignOnConnectorSession),
        AuthEvent.setSession s' ∈ (getAuthorizationUrl config params hasS disc g).1.1 →
        s'.redirectUri = params.redirectUri) := by
  constructor
  · intro req hreq
    cases discovered with
    | error e =>
      rw [getUserInfo_discovery_error] at hreq
      simp at hreq
    | ok m =>
      cases hpr : provider (fetchTokenRequest (mergeOidcConfig config m) d s.redirectUri) with
      | error e =>
        rw [getUserInfo_exchange_error config m provider now s d e hpr] at hreq
        simp at hreq
        rw [hreq]
        rfl
      | ok t =>
        rw [getUserInfo_eq_of_token config m provider now s d t hpr] at hreq
        simp at hreq
        rw [hreq]
        rfl
  · intro params hasS disc g s' hs
    cases hasS with
    | false => simp [getAuthorizationUrl] at hs
    | true =>
      cases disc with
      | error e => simp [getAuthorizationUrl, getOidcConfig, Except.map] at hs
      | ok m =>
        rw [getAuthorizationUrl_ok_eq] at hs
        simp at hs
        rw [hs]

/-- C10 witness: in a concrete successful callback the one token request
carries the session's redirect URI, which equals the authorization request's
redirect URI. -/
theorem getUserInfo_redirectUri_from_session_witness :
    (fetchTokenRequest (mergeOidcConfig scenarioConfig scenarioMetadata) scenarioData
      scenarioSession.redirectUri).redirectUri = scenarioSession.redirectUri
    ∧ scenarioSession.redirectUri = scenarioParams.redirectUri := by
  have h := getUserInfo_redirectUri_from_session scenarioConfig (.ok scenarioMetadata)
    (fun _ => .ok tokenGood) 50 scenarioSession scenarioData
  exact ⟨h.1 _ (by decide),
    h.2 scenarioParams true (.ok scenarioMetadata) 5 scenarioSession (by decide)⟩
